import Mathlib

/-!
Verification of the pxt-engine renderer core against its specification.

Each section embeds one part of the C++ source (shallowly: machine
integers become Nat with explicit reductions modulo 2^32 / 2^64 where
overflow matters, stateful code becomes explicit state passing) and
proves or refutes the corresponding specification sentence.
-/

namespace PXTEngine

/-! ## Core constants (src/Engine/src/core/constants.hpp, swap_chain.hpp) -/

/-- Maximum number of point lights in the scene (constants.hpp line 33). -/
def MAX_LIGHTS : Nat := 10

/-- Frames in flight (swap_chain.hpp line 29). -/
def MAX_FRAMES_IN_FLIGHT : Nat := 2

/-! ## Present-mode selection (swap_chain.cpp, SwapChain::chooseSwapPresentMode)

The source first scans the available modes for MAILBOX and returns it when
found.  The file then has a second scan for IMMEDIATE guarded by
the preprocessor check on USE_IMMEDIATE_PRESENT_MODE; since swap_chain.cpp
line 5 defines that macro (to the value 0) and the guard tests definedness
rather than the value, the IMMEDIATE scan is compiled in.  Finally FIFO is
returned. -/

/-- VkPresentModeKHR values that the selection code distinguishes; all
remaining enum values are collapsed into the last constructor. -/
inductive PresentMode where
  | mailbox
  | immediate
  | fifo
  | otherMode (n : Nat)
deriving DecidableEq, Repr

/-- Embedding of SwapChain::chooseSwapPresentMode.  Each for-loop that
returns on first match of a fixed constant is a containment test. -/
def chooseSwapPresentMode (availablePresentModes : List PresentMode) : PresentMode :=
  if availablePresentModes.contains PresentMode.mailbox then
    PresentMode.mailbox
  else if availablePresentModes.contains PresentMode.immediate then
    PresentMode.immediate
  else
    PresentMode.fifo

/-! ## Texture registry (texture_registry.cpp) -/

/-- An image as the registry sees it: its resource id, whether the
dynamic cast to Texture2D succeeds, and its aliasName string. -/
structure RegImage where
  rid : Nat
  isTexture2D : Bool
  aliasName : String
deriving DecidableEq, Repr

/-- Assignment into a std::map via operator[]: overwrite the entry with
an equal key, or append a fresh entry. -/
def mapAssign {α β : Type} [DecidableEq α] (k : α) (v : β) :
    List (α × β) → List (α × β)
  | [] => [(k, v)]
  | (k1, v1) :: rest =>
      if k = k1 then (k, v) :: rest else (k1, v1) :: mapAssign k v rest

/-- Lookup in a std::map (find). -/
def mapFind {α β : Type} [DecidableEq α] (k : α) :
    List (α × β) → Option β
  | [] => none
  | (k1, v1) :: rest => if k = k1 then some v1 else mapFind k rest

/-- State of TextureRegistry: the texture list plus the two lookup maps. -/
structure TextureRegistry where
  textures : List RegImage
  idToIndex : List (Nat × Nat)
  aliasToIndex : List (String × Nat)
deriving Repr

/-- Registry as constructed (all containers empty). -/
def TextureRegistry.empty : TextureRegistry :=
  { textures := [], idToIndex := [], aliasToIndex := [] }

/-- Embedding of TextureRegistry::add.  A failed dynamic cast returns 0
without registering; otherwise the image is appended, its id mapped to
the pre-insertion size, and a non-empty aliasName mapped likewise. -/
def TextureRegistry.add (r : TextureRegistry) (image : RegImage) :
    TextureRegistry × Nat :=
  if !image.isTexture2D then
    (r, 0)
  else
    let index := r.textures.length
    let r1 : TextureRegistry :=
      { textures := r.textures ++ [image]
        idToIndex := mapAssign image.rid index r.idToIndex
        aliasToIndex :=
          if image.aliasName ≠ "" then mapAssign image.aliasName index r.aliasToIndex
          else r.aliasToIndex }
    (r1, index)

/-- Embedding of TextureRegistry::getIndex(const ResourceId&). -/
def TextureRegistry.getIndexById (r : TextureRegistry) (id : Nat) : Nat :=
  match mapFind id r.idToIndex with
  | some i => i
  | none => 0

/-- Embedding of TextureRegistry::getIndex(const std::string&). -/
def TextureRegistry.getIndexByAlias (r : TextureRegistry) (aliasName : String) : Nat :=
  match mapFind aliasName r.aliasToIndex with
  | some i => i
  | none => 0

/-- Register a batch of images in order (sequence of add calls). -/
def registerAll (r : TextureRegistry) : List RegImage → TextureRegistry
  | [] => r
  | image :: rest => registerAll (r.add image).1 rest

/-! ## Point-light UBO update (point_light_system.cpp, PointLightSystem::update)

The loop walks every entity of the PointLight+Color+Transform view,
assigns ubo.pointLights[lightIndex] and increments lightIndex, with no
bound check; afterwards ubo.numLights = lightIndex.  We record the slot
indices assigned, in order.  The per-light payload (positions, colors:
floats) is irrelevant to the claim and carried as a type parameter. -/

/-- Slot indices written by the update loop, starting from a given value
of lightIndex. -/
def pointLightWriteSlots {α : Type} : List α → Nat → List Nat
  | [], _ => []
  | _ :: rest, lightIndex => lightIndex :: pointLightWriteSlots rest (lightIndex + 1)

/-- Embedding of PointLightSystem::update: the list of pointLights array
slots assigned, and the final value stored into ubo.numLights. -/
def pointLightUpdate {α : Type} (entities : List α) : List Nat × Nat :=
  (pointLightWriteSlots entities 0, entities.length)

/-! ## Swapchain frame pacing (swap_chain.cpp, acquireNextImage /
submitCommandBuffers)

The two per-frame synchronisation primitives indexed by m_currentFrame
are m_inFlightFences and m_imageAvailableSemaphores; the semaphores in
m_renderFinishedSemaphores are indexed by the acquired image index.
acquireNextImage waits on m_inFlightFences[m_currentFrame] and hands
m_imageAvailableSemaphores[m_currentFrame] to the driver;
submitCommandBuffers waits that same semaphore at
COLOR_ATTACHMENT_OUTPUT, signals m_renderFinishedSemaphores[imageIndex]
and (as the queue-submit fence, after a reset) the in-flight fence of
m_currentFrame, presents waiting on the render-finished semaphore, then
advances m_currentFrame = (m_currentFrame + 1) % MAX_FRAMES_IN_FLIGHT.
A frame below is one acquireNextImage followed by one
submitCommandBuffers, parameterised by the image index the driver
returned. -/

/-- Synchronisation indices touched by one frame. -/
structure FrameSync where
  waitedFence : Nat
  acquireSemaphore : Nat
  signalledRenderFinished : Nat
  signalledFence : Nat
deriving DecidableEq, Repr

/-- Mutable swapchain pacing state: m_currentFrame. -/
structure SwapChainState where
  currentFrame : Nat
deriving DecidableEq, Repr

/-- One frame: acquireNextImage then submitCommandBuffers for a given
acquired image index. -/
def runFrame (s : SwapChainState) (imageIndex : Nat) : FrameSync × SwapChainState :=
  ({ waitedFence := s.currentFrame
     acquireSemaphore := s.currentFrame
     signalledRenderFinished := imageIndex
     signalledFence := s.currentFrame },
   { currentFrame := (s.currentFrame + 1) % MAX_FRAMES_IN_FLIGHT })

/-- Run a sequence of frames; the list holds the image index the driver
returns at each acquire. -/
def runFrames (s : SwapChainState) : List Nat → List FrameSync
  | [] => []
  | imageIndex :: rest =>
      let (ev, s1) := runFrame s imageIndex
      ev :: runFrames s1 rest

/-! ## Image layout transitions (vk_image.cpp,
VulkanImage::transitionImageLayout, command-buffer overload) -/

/-- VkImageLayout values distinguished by the transition switch; every
other enum value falls into the last constructor. -/
inductive ImageLayout where
  | undefined
  | preinitialized
  | colorAttachmentOptimal
  | depthStencilAttachmentOptimal
  | transferSrcOptimal
  | transferDstOptimal
  | shaderReadOnlyOptimal
  | general
  | otherLayout (n : Nat)
deriving DecidableEq, Repr

/-- VkAccessFlagBits values used in the transition table. -/
def VK_ACCESS_SHADER_READ_BIT : Nat := 0x20
/-- VkAccessFlagBits value. -/
def VK_ACCESS_SHADER_WRITE_BIT : Nat := 0x40
/-- VkAccessFlagBits value. -/
def VK_ACCESS_COLOR_ATTACHMENT_WRITE_BIT : Nat := 0x100
/-- VkAccessFlagBits value. -/
def VK_ACCESS_DEPTH_STENCIL_ATTACHMENT_WRITE_BIT : Nat := 0x400
/-- VkAccessFlagBits value. -/
def VK_ACCESS_TRANSFER_READ_BIT : Nat := 0x800
/-- VkAccessFlagBits value. -/
def VK_ACCESS_TRANSFER_WRITE_BIT : Nat := 0x1000
/-- VkAccessFlagBits value. -/
def VK_ACCESS_HOST_WRITE_BIT : Nat := 0x4000

/-- Source-access switch of transitionImageLayout, on the current
layout; the default case throws. -/
def srcAccessMaskFor : ImageLayout → Option Nat
  | ImageLayout.undefined => some 0
  | ImageLayout.preinitialized => some VK_ACCESS_HOST_WRITE_BIT
  | ImageLayout.colorAttachmentOptimal => some VK_ACCESS_COLOR_ATTACHMENT_WRITE_BIT
  | ImageLayout.depthStencilAttachmentOptimal =>
      some VK_ACCESS_DEPTH_STENCIL_ATTACHMENT_WRITE_BIT
  | ImageLayout.transferSrcOptimal => some VK_ACCESS_TRANSFER_READ_BIT
  | ImageLayout.transferDstOptimal => some VK_ACCESS_TRANSFER_WRITE_BIT
  | ImageLayout.shaderReadOnlyOptimal => some VK_ACCESS_SHADER_READ_BIT
  | ImageLayout.general =>
      some (VK_ACCESS_SHADER_READ_BIT ||| VK_ACCESS_SHADER_WRITE_BIT)
  | ImageLayout.otherLayout _ => none

/-- Destination-access switch of transitionImageLayout, on the new
layout; the default case throws, and UNDEFINED / PREINITIALIZED are not
cases of this switch. -/
def dstAccessMaskFor : ImageLayout → Option Nat
  | ImageLayout.transferDstOptimal => some VK_ACCESS_TRANSFER_WRITE_BIT
  | ImageLayout.transferSrcOptimal => some VK_ACCESS_TRANSFER_READ_BIT
  | ImageLayout.colorAttachmentOptimal => some VK_ACCESS_COLOR_ATTACHMENT_WRITE_BIT
  | ImageLayout.depthStencilAttachmentOptimal =>
      some VK_ACCESS_DEPTH_STENCIL_ATTACHMENT_WRITE_BIT
  | ImageLayout.shaderReadOnlyOptimal => some VK_ACCESS_SHADER_READ_BIT
  | ImageLayout.general =>
      some (VK_ACCESS_SHADER_READ_BIT ||| VK_ACCESS_SHADER_WRITE_BIT)
  | _ => none

/-- The image-memory barrier fields the claim is about. -/
structure ImageMemoryBarrier where
  oldLayout : ImageLayout
  newLayout : ImageLayout
  srcAccessMask : Nat
  dstAccessMask : Nat
deriving DecidableEq, Repr

/-- Tracked image state: m_currentLayout. -/
structure VulkanImageState where
  currentLayout : ImageLayout
deriving DecidableEq, Repr

/-- Embedding of VulkanImage::transitionImageLayout (the overload that
records into a caller command buffer): either the recorded barrier plus
the updated tracked state, or the thrown error message.  The two
switches run in source order, so an unsupported current layout throws
before the new layout is examined. -/
def transitionImageLayout (s : VulkanImageState) (newLayout : ImageLayout) :
    Except String (ImageMemoryBarrier × VulkanImageState) :=
  match srcAccessMaskFor s.currentLayout with
  | none => Except.error "Unsupported old image layout when transitioning"
  | some src =>
      match dstAccessMaskFor newLayout with
      | none => Except.error "Unsupported new image layout when transitioning"
      | some dst =>
          Except.ok
            ({ oldLayout := s.currentLayout
               newLayout := newLayout
               srcAccessMask := src
               dstAccessMask := dst },
             { currentLayout := newLayout })

/-- Claim-side set: the layouts the specification lists as valid current
layouts. -/
def validCurrentLayout (l : ImageLayout) : Prop :=
  l = ImageLayout.undefined ∨ l = ImageLayout.preinitialized ∨
  l = ImageLayout.colorAttachmentOptimal ∨
  l = ImageLayout.depthStencilAttachmentOptimal ∨
  l = ImageLayout.transferSrcOptimal ∨ l = ImageLayout.transferDstOptimal ∨
  l = ImageLayout.shaderReadOnlyOptimal ∨ l = ImageLayout.general

/-- Claim-side set: the layouts the specification lists as valid new
layouts (the fixed set minus UNDEFINED and PREINITIALIZED, which are
valid only as current layouts). -/
def validNewLayout (l : ImageLayout) : Prop :=
  l = ImageLayout.colorAttachmentOptimal ∨
  l = ImageLayout.depthStencilAttachmentOptimal ∨
  l = ImageLayout.transferSrcOptimal ∨ l = ImageLayout.transferDstOptimal ∨
  l = ImageLayout.shaderReadOnlyOptimal ∨ l = ImageLayout.general

instance (l : ImageLayout) : Decidable (validCurrentLayout l) := by
  unfold validCurrentLayout; infer_instance

instance (l : ImageLayout) : Decidable (validNewLayout l) := by
  unfold validNewLayout; infer_instance

/-! ## Ray-tracing scene manager (raytracing_scene_manager_system.cpp)

The createTLAS entity loop walks the Transform+Mesh view, skips entities
with neither Material nor Volume component, and for the rest builds one
MeshInstanceData record each; a Material component takes the first
branch (appending an EmitterData record when the material is emissive),
otherwise a Volume component takes the second branch (consuming the next
volumeIndex and appending a VolumeData record).  Floats inside the
records (matrices, tint colors, absorption) are irrelevant to the claims
and are abstracted into Nat payload tokens. -/

/-- Sentinel std::numeric_limits of uint32_t max, written into
materialIndex / volumeIndex when absent. -/
def invalidIndex : Nat := 4294967295

/-- An entity of the Transform+Mesh view as the loop reads it. -/
structure RTEntity where
  meshId : Nat
  indexCount : Nat
  hasMaterial : Bool
  materialEmissive : Bool
  materialIdx : Nat
  hasVolume : Bool
  volumePayload : Nat
deriving DecidableEq, Repr

/-- MeshInstanceData fields the claims are about (buffer addresses and
matrices abstracted into meshId). -/
structure MeshInstanceData where
  meshId : Nat
  materialIndex : Nat
  volumeIndex : Nat
deriving DecidableEq, Repr

/-- EmitterData record. -/
structure EmitterData where
  instanceIndex : Nat
  numberOfFaces : Nat
deriving DecidableEq, Repr

/-- VolumeData record (float fields abstracted into the payload token). -/
structure VolumeData where
  payload : Nat
deriving DecidableEq, Repr

/-- Contribution of one loop iteration: the entity it processed, the
MeshInstanceData it pushed (none when the hasAny filter skipped the
entity), and the emitter / volume records it appended. -/
structure TlasStep where
  entity : RTEntity
  meshRec : Option MeshInstanceData
  emitters : List EmitterData
  volumes : List VolumeData
deriving DecidableEq, Repr

/-- Embedding of the createTLAS entity loop, instrumented per iteration;
instanceIndex and volumeIndex are the two running counters. -/
def tlasLoop : List RTEntity → Nat → Nat → List TlasStep
  | [], _, _ => []
  | e :: rest, instanceIndex, volumeIndex =>
      if !(e.hasMaterial || e.hasVolume) then
        { entity := e, meshRec := none, emitters := [], volumes := [] }
          :: tlasLoop rest instanceIndex volumeIndex
      else
        let rec0 : MeshInstanceData :=
          { meshId := e.meshId, materialIndex := invalidIndex,
            volumeIndex := invalidIndex }
        if e.hasMaterial then
          { entity := e
            meshRec := some { rec0 with materialIndex := e.materialIdx }
            emitters :=
              if e.materialEmissive then
                [{ instanceIndex := instanceIndex,
                   numberOfFaces := e.indexCount / 3 }]
              else []
            volumes := [] } :: tlasLoop rest (instanceIndex + 1) volumeIndex
        else if e.hasVolume then
          { entity := e
            meshRec := some { rec0 with volumeIndex := volumeIndex }
            emitters := []
            volumes := [{ payload := e.volumePayload }] }
            :: tlasLoop rest (instanceIndex + 1) (volumeIndex + 1)
        else
          -- unreachable: the hasAny filter already skipped this entity
          { entity := e, meshRec := some rec0, emitters := [], volumes := [] }
            :: tlasLoop rest (instanceIndex + 1) volumeIndex

/-- Scratch list m_meshInstanceData rebuilt by one createTLAS call. -/
def meshInstanceDataOf (scene : List RTEntity) : List MeshInstanceData :=
  ((tlasLoop scene 0 0).map (fun st => st.meshRec.toList)).flatten

/-- Scratch list m_emitters rebuilt by one createTLAS call. -/
def emittersOf (scene : List RTEntity) : List EmitterData :=
  ((tlasLoop scene 0 0).map (fun st => st.emitters)).flatten

/-- Scratch list m_volumes rebuilt by one createTLAS call. -/
def volumesOf (scene : List RTEntity) : List VolumeData :=
  ((tlasLoop scene 0 0).map (fun st => st.volumes)).flatten

/-! ### Per-frame SSBO uploads (updateMeshInstanceDescriptorSet,
updateEmittersDescriptorSet, updateVolumesDescriptorSet)

Each update function returns immediately when its member buffer is
already non-null; only otherwise does it create the buffer and upload
the current scratch list.  The GPU buffer contents are modelled as the
uploaded record list (for the emitters buffer, together with the
emitterCount prefix the staging write puts before the records). -/

/-- GPU-side buffers of RayTracingSceneManagerSystem; none models a
null Unique handle (never-created buffer). -/
structure RTBuffers where
  meshInstanceBuffer : Option (List MeshInstanceData)
  emittersBuffer : Option (Nat × List EmitterData)
  volumesBuffer : Option (List VolumeData)
deriving DecidableEq, Repr

/-- Buffer state at construction: all handles null. -/
def RTBuffers.initial : RTBuffers :=
  { meshInstanceBuffer := none, emittersBuffer := none, volumesBuffer := none }

/-- Embedding of updateMeshInstanceDescriptorSet. -/
def updateMeshInstanceDescriptorSet (recs : List MeshInstanceData)
    (s : RTBuffers) : RTBuffers :=
  if s.meshInstanceBuffer.isSome then s
  else { s with meshInstanceBuffer := some recs }

/-- Embedding of updateEmittersDescriptorSet: the staging buffer holds
emitterCount followed by the records. -/
def updateEmittersDescriptorSet (recs : List EmitterData)
    (s : RTBuffers) : RTBuffers :=
  if s.emittersBuffer.isSome then s
  else { s with emittersBuffer := some (recs.length, recs) }

/-- Embedding of updateVolumesDescriptorSet. -/
def updateVolumesDescriptorSet (recs : List VolumeData)
    (s : RTBuffers) : RTBuffers :=
  if s.volumesBuffer.isSome then s
  else { s with volumesBuffer := some recs }

/-- SSBO effect of one createTLAS call: clear and regenerate the three
scratch lists from the scene, then run the three update functions. -/
def createTLASBuffers (s : RTBuffers) (scene : List RTEntity) : RTBuffers :=
  let s1 := updateMeshInstanceDescriptorSet (meshInstanceDataOf scene) s
  let s2 := updateEmittersDescriptorSet (emittersOf scene) s1
  updateVolumesDescriptorSet (volumesOf scene) s2

/-! ### TLAS handle lifetime (createTLAS tail, updateTLASDescriptorSet,
destroyTLAS)

After recording the build, createTLAS runs, in order:
updateTLASDescriptorSet(newTlas); destroyTLAS(); m_tlas = newTlas.
destroyTLAS destroys m_tlas only when it is not VK_NULL_HANDLE.  We log
descriptor writes and handle destructions as events. -/

/-- Observable TLAS lifetime events. -/
inductive TlasEvent where
  | writeDescriptor (handle : Nat)
  | destroyAS (handle : Nat)
deriving DecidableEq, Repr

/-- TLAS-related state: m_tlas and the handle the TLAS descriptor set
currently references. -/
structure TlasState where
  tlas : Option Nat
  descriptorTlas : Option Nat
deriving DecidableEq, Repr

/-- Embedding of destroyTLAS. -/
def destroyTLAS (s : TlasState) : TlasState × List TlasEvent :=
  match s.tlas with
  | some h => ({ s with tlas := none }, [TlasEvent.destroyAS h])
  | none => (s, [])

/-- Embedding of the tail of createTLAS, from updateTLASDescriptorSet
onwards, for the freshly created handle newTlas. -/
def createTLASFinish (s : TlasState) (newTlas : Nat) : TlasState × List TlasEvent :=
  let s1 : TlasState := { s with descriptorTlas := some newTlas }
  let ev1 := [TlasEvent.writeDescriptor newTlas]
  let (s2, ev2) := destroyTLAS s1
  ({ s2 with tlas := some newTlas }, ev1 ++ ev2)

/-! ## Point-light billboard ordering (point_light_system.cpp,
PointLightSystem::render)

The render pass builds std::map(float, entt::entity) keyed on the
squared distance to the camera (sorted[distanceSq] = entity, an
overwriting assignment) and then draws while iterating the map through
std::ranges::reverse_view.  We model the map as a strictly ascending
association list; keys are the distance-squared values (abstracted to
Nat, only their ordering matters), values the entities. -/

/-- Insertion into the ordered map with operator[] overwrite
semantics. -/
def sortedInsert (k v : Nat) : List (Nat × Nat) → List (Nat × Nat)
  | [] => [(k, v)]
  | (k1, v1) :: rest =>
      if k < k1 then (k, v) :: (k1, v1) :: rest
      else if k = k1 then (k, v) :: rest
      else (k1, v1) :: sortedInsert k v rest

/-- The map built by the first loop of render, over the view entities
paired with their squared camera distance. -/
def buildSortedMap (lights : List (Nat × Nat)) : List (Nat × Nat) :=
  lights.foldl (fun m kv => sortedInsert kv.1 kv.2 m) []

/-- Draw order of the second loop: the map iterated in reverse. -/
def billboardDrawList (lights : List (Nat × Nat)) : List (Nat × Nat) :=
  (buildSortedMap lights).reverse

/-! ## Shader binding table (raytracing_render_system.cpp,
RayTracingRenderSystem::createShaderBindingTable and the alignUp helper)

All the quantities below are C unsigned 32-bit values (device addresses
are 64-bit); arithmetic is reduced modulo 2^32 (resp. 2^64) wherever the
C computation can wrap. -/

/-- Embedding of the alignUp helper
(value + alignment - 1) AND NOT (alignment - 1) in uint32_t arithmetic:
both subtractions wrap modulo 2^32 and the complement of x is
2^32 - 1 - x. -/
def alignUp (value alignment : Nat) : Nat :=
  ((value + alignment + 2 ^ 32 - 1) % 2 ^ 32) &&&
    (2 ^ 32 - 1 - ((alignment + 2 ^ 32 - 1) % 2 ^ 32))

/-- First stage of a shader group (group.stages[0].first), as the
counting switch distinguishes it. -/
inductive ShaderStageKind where
  | raygen
  | miss
  | closestHit
  | anyHit
  | intersection
  | callable
  | otherStage (n : Nat)
deriving DecidableEq, Repr

/-- Does a group count towards the hit counter. -/
def ShaderStageKind.isHit : ShaderStageKind → Bool
  | ShaderStageKind.closestHit => true
  | ShaderStageKind.anyHit => true
  | ShaderStageKind.intersection => true
  | _ => false

/-- One vkCmdTraceRaysKHR region. -/
structure StridedRegion where
  deviceAddress : Nat
  stride : Nat
  size : Nat
deriving DecidableEq, Repr

/-- The four regions produced by createShaderBindingTable. -/
structure SbtRegions where
  raygen : StridedRegion
  miss : StridedRegion
  hit : StridedRegion
  callable : StridedRegion
deriving DecidableEq, Repr

/-- Section sizes computed by createShaderBindingTable, in order
(raygen, miss, hit, callable).  The group counters are uint8_t and the
products are uint32_t. -/
def sbtSectionSizes (handleSize handleAlignment baseAlignment : Nat)
    (groups : List ShaderStageKind) : Nat × Nat × Nat × Nat :=
  let handleSizeAligned := alignUp handleSize handleAlignment
  let rayGenGroupsCount := (groups.count ShaderStageKind.raygen) % 256
  let missGroupsCount := (groups.count ShaderStageKind.miss) % 256
  let hitGroupsCount := (groups.countP (fun g => g.isHit)) % 256
  let rayGenSectionSize :=
    alignUp ((handleSizeAligned * rayGenGroupsCount) % 2 ^ 32) baseAlignment
  let missSectionSize :=
    alignUp ((handleSizeAligned * missGroupsCount) % 2 ^ 32) baseAlignment
  let hitSectionSize :=
    alignUp ((handleSizeAligned * hitGroupsCount) % 2 ^ 32) baseAlignment
  (rayGenSectionSize, missSectionSize, hitSectionSize, 0)

/-- Embedding of the region assembly at the end of
createShaderBindingTable, from the device properties (handleSize = H,
handleAlignment = Ha, baseAlignment = Ba), the pipeline shader groups,
and the SBT buffer device address. -/
def createSBTRegions (handleSize handleAlignment baseAlignment : Nat)
    (groups : List ShaderStageKind) (sbtAddress : Nat) : SbtRegions :=
  let handleSizeAligned := alignUp handleSize handleAlignment
  let sizes := sbtSectionSizes handleSize handleAlignment baseAlignment groups
  let rayGenSectionSize := sizes.1
  let missSectionSize := sizes.2.1
  let hitSectionSize := sizes.2.2.1
  { raygen :=
      { deviceAddress := sbtAddress % 2 ^ 64
        stride := rayGenSectionSize
        size := rayGenSectionSize }
    miss :=
      { deviceAddress := (sbtAddress + rayGenSectionSize) % 2 ^ 64
        stride := handleSizeAligned
        size := missSectionSize }
    hit :=
      { deviceAddress := (sbtAddress + rayGenSectionSize + missSectionSize) % 2 ^ 64
        stride := handleSizeAligned
        size := hitSectionSize }
    callable := { deviceAddress := 0, stride := 0, size := 0 } }

/-! # Theorems -/

/-! ## C1: swapchain frame pacing -/

/-- Closed form for the synchronisation indices of frame i when pacing
starts at a current-frame index below MAX_FRAMES_IN_FLIGHT. -/
theorem runFrames_spec (images : List Nat) (c : Nat)
    (hc : c < MAX_FRAMES_IN_FLIGHT) (i : Nat) (h : i < images.length) :
    (runFrames { currentFrame := c } images)[i]? =
      some { waitedFence := (c + i) % MAX_FRAMES_IN_FLIGHT
             acquireSemaphore := (c + i) % MAX_FRAMES_IN_FLIGHT
             signalledRenderFinished := images[i]
             signalledFence := (c + i) % MAX_FRAMES_IN_FLIGHT } := by
  induction images generalizing c i with
  | nil => simp at h
  | cons hd tl ih =>
      cases i with
      | zero =>
          simp [runFrames, runFrame, Nat.mod_eq_of_lt hc]
      | succ i =>
          have hlt : i < tl.length := by simpa using h
          have hc1 : (c + 1) % MAX_FRAMES_IN_FLIGHT < MAX_FRAMES_IN_FLIGHT :=
            Nat.mod_lt _ (by decide)
          have key := ih ((c + 1) % MAX_FRAMES_IN_FLIGHT) hc1 i hlt
          have harith : ((c + 1) % MAX_FRAMES_IN_FLIGHT + i) % MAX_FRAMES_IN_FLIGHT =
              (c + (i + 1)) % MAX_FRAMES_IN_FLIGHT := by
            simp only [MAX_FRAMES_IN_FLIGHT]; omega
          rw [harith] at key
          simpa [runFrames, runFrame] using key

/-- C1: acquireNextImage waits on the in-flight fence of current_frame,
submitCommandBuffers signals render_finished[image_index] and the same
in-flight fence and advances current_frame modulo MAX_FRAMES_IN_FLIGHT;
consequently, in every run of at least 3 frames, the fence waited on in
frame i (for i at least MAX_FRAMES_IN_FLIGHT) is exactly the fence that
was signalled in frame i - MAX_FRAMES_IN_FLIGHT. -/
theorem C1_swapchain_fence_pacing (images : List Nat) (i : Nat)
    (hlen : 3 ≤ images.length) (hi : MAX_FRAMES_IN_FLIGHT ≤ i)
    (hilt : i < images.length) :
    ((runFrames { currentFrame := 0 } images)[i]?.map FrameSync.waitedFence) =
      ((runFrames { currentFrame := 0 } images)[i - MAX_FRAMES_IN_FLIGHT]?.map
        FrameSync.signalledFence) := by
  have h2 : i - MAX_FRAMES_IN_FLIGHT < images.length := by
    have := hilt; omega
  rw [runFrames_spec images 0 (by decide) i hilt,
    runFrames_spec images 0 (by decide) (i - MAX_FRAMES_IN_FLIGHT) h2]
  have harith : i % MAX_FRAMES_IN_FLIGHT =
      (i - MAX_FRAMES_IN_FLIGHT) % MAX_FRAMES_IN_FLIGHT := by
    simp only [MAX_FRAMES_IN_FLIGHT] at hi ⊢
    omega
  simp [harith]

/-- Witness for C1 at a concrete 3-frame run. -/
theorem C1_swapchain_fence_pacing_witness :
    (3 ≤ ([0, 1, 0] : List Nat).length) ∧
    ((runFrames { currentFrame := 0 } [0, 1, 0])[2]?.map FrameSync.waitedFence) =
      ((runFrames { currentFrame := 0 } [0, 1, 0])[2 - MAX_FRAMES_IN_FLIGHT]?.map
        FrameSync.signalledFence) :=
  ⟨by decide,
    C1_swapchain_fence_pacing [0, 1, 0] 2 (by decide) (by decide) (by decide)⟩

/-! ## C3: point-light UBO update has no cap at 10 -/

/-- C3 is false on the code: the update loop of PointLightSystem has no
bound check, so a scene with 11 matching entities assigns 11 distinct
pointLights slots, including the out-of-bounds slot MAX_LIGHTS = 10, and
stores numLights = 11 > 10. -/
theorem C3_point_light_update_unbounded :
    (pointLightUpdate (List.replicate 11 ())).2 = 11 ∧
    MAX_LIGHTS < (pointLightUpdate (List.replicate 11 ())).2 ∧
    MAX_LIGHTS ∈ (pointLightUpdate (List.replicate 11 ())).1 ∧
    (pointLightUpdate (List.replicate 11 ())).1.length = 11 := by
  decide

/-! ## C4: the instance / emitter / volume SSBOs are uploaded only once -/

/-- C4 is false on the code: the three update functions return early as
soon as their buffer exists, so the second createTLAS leaves the GPU
buffers holding the first frame's records even though the scene (and the
regenerated scratch lists) changed. -/
theorem C4_ssbo_upload_is_stale :
    let e1 : RTEntity :=
      { meshId := 1, indexCount := 3, hasMaterial := true,
        materialEmissive := false, materialIdx := 5, hasVolume := false,
        volumePayload := 0 }
    let e2 : RTEntity :=
      { meshId := 2, indexCount := 6, hasMaterial := true,
        materialEmissive := true, materialIdx := 7, hasVolume := false,
        volumePayload := 0 }
    let s1 := createTLASBuffers RTBuffers.initial [e1]
    let s2 := createTLASBuffers s1 [e1, e2]
    s2.meshInstanceBuffer = some (meshInstanceDataOf [e1]) ∧
    meshInstanceDataOf [e1] ≠ meshInstanceDataOf [e1, e2] ∧
    s2.emittersBuffer = some ((emittersOf [e1]).length, emittersOf [e1]) ∧
    emittersOf [e1] ≠ emittersOf [e1, e2] ∧
    s2.volumesBuffer = some (volumesOf [e1]) := by
  decide

/-! ## C8: present-mode selection can return IMMEDIATE -/

/-- C8 is false on the code: USE_IMMEDIATE_PRESENT_MODE is defined (to
0) and tested with a definedness check, so the IMMEDIATE scan is active
and a mode list without MAILBOX but with IMMEDIATE selects IMMEDIATE,
not FIFO. -/
theorem C8_immediate_selected_over_fifo :
    chooseSwapPresentMode [PresentMode.immediate] = PresentMode.immediate ∧
    PresentMode.immediate ≠ PresentMode.fifo := by
  decide

/-! ## C5: old TLAS destroyed only after the descriptor rewrite -/

/-- C5: in every execution of the createTLAS tail with a fresh handle,
the descriptor set is rewritten to the new TLAS, the new TLAS becomes
m_tlas, and every destruction event in the emitted sequence concerns a
handle different from the one the descriptor now references and is
preceded by the descriptor write. -/
theorem C5_tlas_destroyed_after_descriptor_write (s : TlasState) (n : Nat)
    (hfresh : s.tlas ≠ some n) :
    ((createTLASFinish s n).1.descriptorTlas = some n) ∧
    ((createTLASFinish s n).1.tlas = some n) ∧
    (∀ (i h : Nat), ((createTLASFinish s n).2)[i]? = some (TlasEvent.destroyAS h) →
      h ≠ n ∧ ∃ j : Nat, j < i ∧
        ((createTLASFinish s n).2)[j]? = some (TlasEvent.writeDescriptor n)) := by
  cases hs : s.tlas with
  | none =>
      refine ⟨by simp [createTLASFinish, destroyTLAS, hs], by simp [createTLASFinish, destroyTLAS, hs], ?_⟩
      intro i h hev
      simp [createTLASFinish, destroyTLAS, hs] at hev
      cases i with
      | zero => simp at hev
      | succ i => simp at hev
  | some old =>
      have hne : old ≠ n := by
        intro heq; exact hfresh (by rw [hs, heq])
      refine ⟨by simp [createTLASFinish, destroyTLAS, hs], by simp [createTLASFinish, destroyTLAS, hs], ?_⟩
      intro i h hev
      simp only [createTLASFinish, destroyTLAS, hs] at hev ⊢
      cases i with
      | zero => simp at hev
      | succ i =>
          cases i with
          | zero =>
              simp at hev
              refine ⟨by simpa [hev.symm] using hne, 0, by decide, by simp⟩
          | succ i => simp at hev

/-- Witness for C5: an old TLAS handle 5 replaced by the fresh handle 7. -/
theorem C5_tlas_destroyed_after_descriptor_write_witness :
    (({ tlas := some 5, descriptorTlas := some 5 } : TlasState).tlas ≠ some 7) ∧
    ((createTLASFinish { tlas := some 5, descriptorTlas := some 5 } 7).1.descriptorTlas = some 7) ∧
    ((createTLASFinish { tlas := some 5, descriptorTlas := some 5 } 7).1.tlas = some 7) ∧
    (∀ (i h : Nat),
      ((createTLASFinish { tlas := some 5, descriptorTlas := some 5 } 7).2)[i]? =
          some (TlasEvent.destroyAS h) →
      h ≠ 7 ∧ ∃ j : Nat, j < i ∧
        ((createTLASFinish { tlas := some 5, descriptorTlas := some 5 } 7).2)[j]? =
          some (TlasEvent.writeDescriptor 7)) := by
  refine ⟨by decide, ?_⟩
  exact C5_tlas_destroyed_after_descriptor_write
    { tlas := some 5, descriptorTlas := some 5 } 7 (by decide)

/-! ## C7: layout-transition helper fails exactly on unknown layouts -/

/-- C7: transitionImageLayout succeeds exactly when the current layout is
in the fixed valid-current set and the requested layout is in the fixed
valid-new set (it throws otherwise), and on success the recorded barrier
carries the table access masks for the (current, new) pair and the
tracked layout becomes the new layout. -/
theorem C7_transition_total_table (s : VulkanImageState) (newLayout : ImageLayout) :
    ((∃ b s1, transitionImageLayout s newLayout = Except.ok (b, s1)) ↔
      (validCurrentLayout s.currentLayout ∧ validNewLayout newLayout)) ∧
    (∀ b s1, transitionImageLayout s newLayout = Except.ok (b, s1) →
      s1.currentLayout = newLayout ∧
      b.oldLayout = s.currentLayout ∧ b.newLayout = newLayout ∧
      srcAccessMaskFor s.currentLayout = some b.srcAccessMask ∧
      dstAccessMaskFor newLayout = some b.dstAccessMask) := by
  constructor
  · constructor
    · rintro ⟨b, s1, hok⟩
      unfold transitionImageLayout at hok
      constructor
      · cases hcl : s.currentLayout <;>
          simp [hcl, srcAccessMaskFor, validCurrentLayout] at hok ⊢
      · cases hnl : newLayout <;>
          cases hcl : s.currentLayout <;>
          simp [hcl, hnl, srcAccessMaskFor, dstAccessMaskFor, validNewLayout] at hok ⊢
    · rintro ⟨hcur, hnew⟩
      have hsrc : ∃ m, srcAccessMaskFor s.currentLayout = some m := by
        rcases hcur with h | h | h | h | h | h | h | h <;>
          rw [h] <;> exact ⟨_, rfl⟩
      have hdst : ∃ m, dstAccessMaskFor newLayout = some m := by
        rcases hnew with h | h | h | h | h | h <;>
          rw [h] <;> exact ⟨_, rfl⟩
      rcases hsrc with ⟨m1, hm1⟩
      rcases hdst with ⟨m2, hm2⟩
      exact ⟨{ oldLayout := s.currentLayout, newLayout := newLayout,
               srcAccessMask := m1, dstAccessMask := m2 },
             { currentLayout := newLayout },
             by unfold transitionImageLayout; rw [hm1, hm2]⟩
  · intro b s1 hok
    unfold transitionImageLayout at hok
    cases hm1 : srcAccessMaskFor s.currentLayout with
    | none => rw [hm1] at hok; simp at hok
    | some m1 =>
        cases hm2 : dstAccessMaskFor newLayout with
        | none => rw [hm1, hm2] at hok; simp at hok
        | some m2 =>
            rw [hm1, hm2] at hok
            simp only [Except.ok.injEq, Prod.mk.injEq] at hok
            obtain ⟨hb, hs1⟩ := hok
            subst hb hs1
            exact ⟨rfl, rfl, rfl, by simpa using hm1, by simpa using hm2⟩

/-- Witness for C7 at the transition UNDEFINED to TRANSFER_DST. -/
theorem C7_transition_total_table_witness :
    ((∃ b s1, transitionImageLayout { currentLayout := ImageLayout.undefined }
        ImageLayout.transferDstOptimal = Except.ok (b, s1)) ↔
      (validCurrentLayout ImageLayout.undefined ∧
       validNewLayout ImageLayout.transferDstOptimal)) ∧
    (∀ b s1, transitionImageLayout { currentLayout := ImageLayout.undefined }
        ImageLayout.transferDstOptimal = Except.ok (b, s1) →
      s1.currentLayout = ImageLayout.transferDstOptimal ∧
      b.oldLayout = ImageLayout.undefined ∧
      b.newLayout = ImageLayout.transferDstOptimal ∧
      srcAccessMaskFor ImageLayout.undefined = some b.srcAccessMask ∧
      dstAccessMaskFor ImageLayout.transferDstOptimal = some b.dstAccessMask) :=
  C7_transition_total_table { currentLayout := ImageLayout.undefined }
    ImageLayout.transferDstOptimal

/-! ## C10: material branch is exclusive over the volume branch -/

/-- C10: in the createTLAS entity loop, any processed entity carrying a
Material component takes the material branch exclusively: it appends no
volume record and its mesh-instance record keeps volume_idx =
0xFFFFFFFF (while receiving its material registry index); and a volume
record is appended only by entities that carry a Volume component and no
Material component. -/
theorem C10_material_branch_exclusive (entities : List RTEntity)
    (i0 v0 : Nat) (st : TlasStep) (hmem : st ∈ tlasLoop entities i0 v0) :
    (st.entity.hasMaterial = true →
      st.volumes = [] ∧
      ∀ r, st.meshRec = some r →
        r.volumeIndex = invalidIndex ∧ r.materialIndex = st.entity.materialIdx) ∧
    (st.volumes ≠ [] →
      st.entity.hasVolume = true ∧ st.entity.hasMaterial = false) := by
  induction entities generalizing i0 v0 with
  | nil => simp [tlasLoop] at hmem
  | cons e rest ih =>
      by_cases hskip : !(e.hasMaterial || e.hasVolume)
      · rw [tlasLoop, if_pos hskip] at hmem
        rcases List.mem_cons.mp hmem with hst | hst
        · subst hst
          exact ⟨fun _ => ⟨rfl, fun r hr => by simp at hr⟩, fun hvol => by simp at hvol⟩
        · exact ih i0 v0 hst
      · rw [tlasLoop, if_neg hskip] at hmem
        by_cases hmat : e.hasMaterial
        · rw [if_pos hmat] at hmem
          rcases List.mem_cons.mp hmem with hst | hst
          · subst hst
            refine ⟨fun _ => ⟨rfl, ?_⟩, fun hvol => absurd rfl hvol⟩
            intro r hr
            simp only [Option.some.injEq] at hr
            subst hr
            exact ⟨rfl, rfl⟩
          · exact ih (i0 + 1) v0 hst
        · rw [if_neg hmat] at hmem
          by_cases hvol : e.hasVolume
          · rw [if_pos hvol] at hmem
            rcases List.mem_cons.mp hmem with hst | hst
            · subst hst
              constructor
              · intro hmat1
                simp only at hmat1
                exact absurd hmat1 hmat
              · intro _
                exact ⟨hvol, Bool.not_eq_true _ ▸ by simpa using hmat⟩
            · exact ih (i0 + 1) (v0 + 1) hst
          · rw [if_neg hvol] at hmem
            rcases List.mem_cons.mp hmem with hst | hst
            · subst hst
              constructor
              · intro hmat1
                exact absurd hmat1 hmat
              · intro hvols
                exact absurd rfl hvols
            · exact ih (i0 + 1) v0 hst

/-- Witness for C10: an entity carrying both a Material and a Volume
component. -/
theorem C10_material_branch_exclusive_witness :
    let e : RTEntity :=
      { meshId := 3, indexCount := 9, hasMaterial := true,
        materialEmissive := false, materialIdx := 4, hasVolume := true,
        volumePayload := 8 }
    let st : TlasStep :=
      { entity := e
        meshRec := some { meshId := 3, materialIndex := 4, volumeIndex := invalidIndex }
        emitters := []
        volumes := [] }
    (st ∈ tlasLoop [e] 0 0) ∧
    ((st.entity.hasMaterial = true →
      st.volumes = [] ∧
      ∀ r, st.meshRec = some r →
        r.volumeIndex = invalidIndex ∧ r.materialIndex = st.entity.materialIdx) ∧
    (st.volumes ≠ [] →
      st.entity.hasVolume = true ∧ st.entity.hasMaterial = false)) :=
  ⟨by decide,
    C10_material_branch_exclusive
      [{ meshId := 3, indexCount := 9, hasMaterial := true,
         materialEmissive := false, materialIdx := 4, hasVolume := true,
         volumePayload := 8 }] 0 0
      { entity :=
          { meshId := 3, indexCount := 9, hasMaterial := true,
            materialEmissive := false, materialIdx := 4, hasVolume := true,
            volumePayload := 8 }
        meshRec := some { meshId := 3, materialIndex := 4, volumeIndex := invalidIndex }
        emitters := []
        volumes := [] }
      (by decide)⟩

/-! ## C6: texture registry lookup with default fallback -/

theorem mapFind_mapAssign_self {α β : Type} [DecidableEq α] (k : α) (v : β)
    (l : List (α × β)) : mapFind k (mapAssign k v l) = some v := by
  induction l with
  | nil => simp [mapAssign, mapFind]
  | cons hd tl ih =>
      by_cases h : k = hd.1
      · simp [mapAssign, mapFind, h]
      · simp [mapAssign, mapFind, h, ih]

theorem mapFind_mapAssign_ne {α β : Type} [DecidableEq α] {k k1 : α} (v : β)
    (l : List (α × β)) (h : k ≠ k1) :
    mapFind k (mapAssign k1 v l) = mapFind k l := by
  induction l with
  | nil => simp [mapAssign, mapFind, h]
  | cons hd tl ih =>
      by_cases h1 : k1 = hd.1
      · subst h1
        simp [mapAssign, mapFind, h]
      · by_cases h2 : k = hd.1
        · simp [mapAssign, mapFind, h1, h2]
        · simp [mapAssign, mapFind, h1, h2, ih]

theorem registerAll_append (r : TextureRegistry) (xs ys : List RegImage) :
    registerAll r (xs ++ ys) = registerAll (registerAll r xs) ys := by
  induction xs generalizing r with
  | nil => simp [registerAll]
  | cons hd tl ih => simp [registerAll, ih]

theorem add_idToIndex_other (r : TextureRegistry) (img : RegImage) (id : Nat)
    (h : img.isTexture2D = true → img.rid ≠ id) :
    mapFind id ((r.add img).1).idToIndex = mapFind id r.idToIndex := by
  by_cases h2d : img.isTexture2D
  · have hne : id ≠ img.rid := fun heq => (h h2d) heq.symm
    simp [TextureRegistry.add, h2d, mapFind_mapAssign_ne _ _ hne]
  · simp [TextureRegistry.add, h2d]

theorem registerAll_idToIndex_untouched (imgs : List RegImage)
    (r : TextureRegistry) (id : Nat)
    (h : ∀ img ∈ imgs, img.isTexture2D = true → img.rid ≠ id) :
    mapFind id (registerAll r imgs).idToIndex = mapFind id r.idToIndex := by
  induction imgs generalizing r with
  | nil => simp [registerAll]
  | cons hd tl ih =>
      rw [registerAll, ih _ (fun img hm => h img (List.mem_cons_of_mem hd hm)),
        add_idToIndex_other r hd id (h hd (List.mem_cons_self hd tl))]

theorem add_aliasToIndex_other (r : TextureRegistry) (img : RegImage) (a : String)
    (h : img.isTexture2D = true → img.aliasName ≠ "" → img.aliasName ≠ a) :
    mapFind a ((r.add img).1).aliasToIndex = mapFind a r.aliasToIndex := by
  by_cases h2d : img.isTexture2D
  · by_cases hempty : img.aliasName = ""
    · simp [TextureRegistry.add, h2d, hempty]
    · have hne : a ≠ img.aliasName := fun heq => (h h2d hempty) heq.symm
      simp [TextureRegistry.add, h2d, hempty, mapFind_mapAssign_ne _ _ hne]
  · simp [TextureRegistry.add, h2d]

theorem registerAll_aliasToIndex_untouched (imgs : List RegImage)
    (r : TextureRegistry) (a : String)
    (h : ∀ img ∈ imgs, img.isTexture2D = true → img.aliasName ≠ "" → img.aliasName ≠ a) :
    mapFind a (registerAll r imgs).aliasToIndex = mapFind a r.aliasToIndex := by
  induction imgs generalizing r with
  | nil => simp [registerAll]
  | cons hd tl ih =>
      rw [registerAll, ih _ (fun img hm => h img (List.mem_cons_of_mem hd hm)),
        add_aliasToIndex_other r hd a (h hd (List.mem_cons_self hd tl))]

/-- C6: registry lookup is total with the default slot as fallback: any
ResourceId or alias that was never registered resolves to 0, and any
registered texture resolves to the index its registration returned
(provided no later registration reuses its id or alias). -/
theorem C6_texture_registry_lookup :
    (∀ (imgs : List RegImage) (id : Nat),
      (∀ img ∈ imgs, img.isTexture2D = true → img.rid ≠ id) →
      (registerAll TextureRegistry.empty imgs).getIndexById id = 0) ∧
    (∀ (imgs : List RegImage) (a : String),
      (∀ img ∈ imgs, img.isTexture2D = true → img.aliasName ≠ "" → img.aliasName ≠ a) →
      (registerAll TextureRegistry.empty imgs).getIndexByAlias a = 0) ∧
    (∀ (pre : List RegImage) (img : RegImage) (post : List RegImage),
      img.isTexture2D = true →
      (∀ i2 ∈ post, i2.isTexture2D = true → i2.rid ≠ img.rid) →
      (registerAll TextureRegistry.empty (pre ++ img :: post)).getIndexById img.rid =
        ((registerAll TextureRegistry.empty pre).add img).2) ∧
    (∀ (pre : List RegImage) (img : RegImage) (post : List RegImage),
      img.isTexture2D = true → img.aliasName ≠ "" →
      (∀ i2 ∈ post, i2.isTexture2D = true → i2.aliasName ≠ "" → i2.aliasName ≠ img.aliasName) →
      (registerAll TextureRegistry.empty (pre ++ img :: post)).getIndexByAlias img.aliasName =
        ((registerAll TextureRegistry.empty pre).add img).2) := by
  refine ⟨?_, ?_, ?_, ?_⟩
  · intro imgs id h
    rw [TextureRegistry.getIndexById, registerAll_idToIndex_untouched imgs _ id h]
    rfl
  · intro imgs a h
    rw [TextureRegistry.getIndexByAlias, registerAll_aliasToIndex_untouched imgs _ a h]
    rfl
  · intro pre img post h2d hpost
    rw [registerAll_append]
    rw [show (img :: post) = [img] ++ post from rfl, registerAll_append]
    rw [TextureRegistry.getIndexById,
      registerAll_idToIndex_untouched post _ img.rid hpost]
    simp [registerAll, TextureRegistry.add, h2d, mapFind_mapAssign_self]
  · intro pre img post h2d hempty hpost
    rw [registerAll_append]
    rw [show (img :: post) = [img] ++ post from rfl, registerAll_append]
    rw [TextureRegistry.getIndexByAlias,
      registerAll_aliasToIndex_untouched post _ img.aliasName hpost]
    simp [registerAll, TextureRegistry.add, h2d, hempty, mapFind_mapAssign_self]

/-- Witness for C6: a miss on id 99 returns the default slot 0, and the
second registered texture resolves to index 1. -/
theorem C6_texture_registry_lookup_witness :
    ((registerAll TextureRegistry.empty
        [{ rid := 1, isTexture2D := true, aliasName := "white" }]).getIndexById 99 = 0) ∧
    ((registerAll TextureRegistry.empty
        ([{ rid := 1, isTexture2D := true, aliasName := "white" }] ++
          { rid := 2, isTexture2D := true, aliasName := "normal" } :: [])).getIndexById 2 =
      ((registerAll TextureRegistry.empty
        [{ rid := 1, isTexture2D := true, aliasName := "white" }]).add
          { rid := 2, isTexture2D := true, aliasName := "normal" }).2) :=
  ⟨C6_texture_registry_lookup.1
      [{ rid := 1, isTexture2D := true, aliasName := "white" }] 99 (by decide),
   (C6_texture_registry_lookup.2.2.1)
      [{ rid := 1, isTexture2D := true, aliasName := "white" }]
      { rid := 2, isTexture2D := true, aliasName := "normal" } [] rfl (by simp)⟩

/-! ## C9: billboard draw order through the reversed distance map -/

theorem mem_sortedInsert {k v : Nat} {l : List (Nat × Nat)} {x : Nat × Nat}
    (hm : x ∈ sortedInsert k v l) : x = (k, v) ∨ x ∈ l := by
  induction l with
  | nil => simpa [sortedInsert] using hm
  | cons hd tl ih =>
      rw [sortedInsert] at hm
      split at hm
      · rcases List.mem_cons.mp hm with h | h
        · exact Or.inl h
        · exact Or.inr h
      · split at hm
        · rcases List.mem_cons.mp hm with h | h
          · exact Or.inl h
          · exact Or.inr (List.mem_cons_of_mem hd h)
        · rcases List.mem_cons.mp hm with h | h
          · exact Or.inr (h ▸ List.mem_cons_self hd tl)
          · rcases ih h with h1 | h1
            · exact Or.inl h1
            · exact Or.inr (List.mem_cons_of_mem hd h1)

theorem pairwise_sortedInsert {k v : Nat} {l : List (Nat × Nat)}
    (hp : l.Pairwise (fun a b => a.1 < b.1)) :
    (sortedInsert k v l).Pairwise (fun a b => a.1 < b.1) := by
  induction l with
  | nil => simp [sortedInsert]
  | cons hd tl ih =>
      rw [List.pairwise_cons] at hp
      obtain ⟨hhd, htl⟩ := hp
      rw [sortedInsert]
      split
      · rename_i hlt
        refine List.Pairwise.cons ?_ (List.Pairwise.cons hhd htl)
        intro y hy
        rcases List.mem_cons.mp hy with h | h
        · exact h ▸ hlt
        · exact Nat.lt_trans hlt (hhd y h)
      · split
        · rename_i hne heq
          exact List.Pairwise.cons (fun y hy => heq ▸ hhd y hy) htl
        · rename_i hnlt hne
          refine List.Pairwise.cons ?_ (ih htl)
          intro y hy
          rcases mem_sortedInsert hy with h | h
          · rw [h]
            simp only []
            omega
          · exact hhd y h

theorem self_key_mem_sortedInsert (k v : Nat) (l : List (Nat × Nat)) :
    (k, v) ∈ sortedInsert k v l := by
  induction l with
  | nil => simp [sortedInsert]
  | cons hd tl ih =>
      rw [sortedInsert]
      split
      · exact List.mem_cons_self _ _
      · split
        · exact List.mem_cons_self _ _
        · exact List.mem_cons_of_mem hd ih

theorem key_preserved_sortedInsert {k0 v0 : Nat} {l : List (Nat × Nat)}
    (k v : Nat) (hm : (k0, v0) ∈ l) :
    ∃ v1, (k0, v1) ∈ sortedInsert k v l := by
  by_cases hk : k0 = k
  · exact ⟨v, hk ▸ self_key_mem_sortedInsert k v l⟩
  · refine ⟨v0, ?_⟩
    induction l with
    | nil => simp at hm
    | cons hd tl ih =>
        rw [sortedInsert]
        split
        · exact List.mem_cons_of_mem _ hm
        · split
          · rename_i hnlt heq
            rcases List.mem_cons.mp hm with h | h
            · exfalso
              apply hk
              rw [show k0 = hd.1 from congrArg Prod.fst h, heq]
            · exact List.mem_cons_of_mem _ h
          · rcases List.mem_cons.mp hm with h | h
            · exact h ▸ List.mem_cons_self _ _
            · exact List.mem_cons_of_mem hd (ih h)

theorem pairwise_foldl_sortedInsert (lights : List (Nat × Nat))
    (acc : List (Nat × Nat)) (hp : acc.Pairwise (fun a b => a.1 < b.1)) :
    (lights.foldl (fun m kv => sortedInsert kv.1 kv.2 m) acc).Pairwise
      (fun a b => a.1 < b.1) := by
  induction lights generalizing acc with
  | nil => simpa
  | cons hd tl ih => exact ih _ (pairwise_sortedInsert hp)

theorem key_mem_foldl_sortedInsert (lights : List (Nat × Nat))
    (acc : List (Nat × Nat)) (k0 v0 : Nat) (hm : (k0, v0) ∈ acc) :
    ∃ v1, (k0, v1) ∈ lights.foldl (fun m kv => sortedInsert kv.1 kv.2 m) acc := by
  induction lights generalizing acc v0 with
  | nil => exact ⟨v0, by simpa using hm⟩
  | cons hd tl ih =>
      obtain ⟨v1, hv1⟩ := key_preserved_sortedInsert hd.1 hd.2 hm
      exact ih (sortedInsert hd.1 hd.2 acc) v1 hv1

theorem mem_key_foldl_sortedInsert (lights : List (Nat × Nat))
    (acc : List (Nat × Nat)) (kv : Nat × Nat) (hm : kv ∈ lights) :
    ∃ v1, (kv.1, v1) ∈ lights.foldl (fun m kv => sortedInsert kv.1 kv.2 m) acc := by
  induction lights generalizing acc with
  | nil => simp at hm
  | cons hd tl ih =>
      rcases List.mem_cons.mp hm with h | h
      · subst h
        simp only [List.foldl_cons]
        exact key_mem_foldl_sortedInsert tl _ kv.1 kv.2
          (self_key_mem_sortedInsert kv.1 kv.2 acc)
      · simp only [List.foldl_cons]
        exact ih _ h

theorem mem_key_buildSortedMap (lights : List (Nat × Nat)) (kv : Nat × Nat)
    (hm : kv ∈ lights) : ∃ v1, (kv.1, v1) ∈ buildSortedMap lights := by
  rw [buildSortedMap]
  exact mem_key_foldl_sortedInsert lights [] kv hm

theorem filter_key_pairwise_le_one {l : List (Nat × Nat)} (k : Nat)
    (hp : l.Pairwise (fun a b => a.1 < b.1)) :
    (l.filter (fun kv => kv.1 == k)).length ≤ 1 := by
  induction l with
  | nil => simp
  | cons hd tl ih =>
      rw [List.pairwise_cons] at hp
      obtain ⟨hhd, htl⟩ := hp
      by_cases hk : hd.1 = k
      · have hnil : tl.filter (fun kv => kv.1 == k) = [] := by
          rw [List.filter_eq_nil]
          intro b hb
          have := hhd b hb
          simp only [beq_iff_eq]
          omega
        simp [List.filter_cons, hk, hnil]
      · simpa [List.filter_cons, hk] using ih htl

/-- C9: the billboard pass keys a map on squared camera distance and
draws it in reverse, so the draw list is strictly descending in
distance, every input distance key is drawn, and each distance key is
drawn at most once — hence of several lights at exactly equal
distance-squared only one is drawn. -/
theorem C9_billboard_reverse_map_order (lights : List (Nat × Nat)) :
    (billboardDrawList lights).Pairwise (fun a b => b.1 < a.1) ∧
    (∀ kv ∈ lights, ∃ v1, (kv.1, v1) ∈ billboardDrawList lights) ∧
    (∀ k : Nat, ((billboardDrawList lights).filter (fun kv => kv.1 == k)).length ≤ 1) := by
  refine ⟨?_, ?_, ?_⟩
  · rw [billboardDrawList, List.pairwise_reverse]
    exact pairwise_foldl_sortedInsert lights [] (by simp)
  · intro kv hm
    obtain ⟨v1, hv1⟩ := mem_key_buildSortedMap lights kv hm
    exact ⟨v1, by rw [billboardDrawList]; simpa using hv1⟩
  · intro k
    rw [billboardDrawList, List.filter_reverse, List.length_reverse]
    exact filter_key_pairwise_le_one k (pairwise_foldl_sortedInsert lights [] (by simp))

/-- Witness for C9: two lights at equal squared distance 4; at most one
entry with key 4 is drawn while both inputs have key 4. -/
theorem C9_billboard_reverse_map_order_witness :
    (((4 : Nat), (1 : Nat)) ∈ [((4 : Nat), (1 : Nat)), (4, 2)]) ∧
    (∃ v1, ((4 : Nat), v1) ∈ billboardDrawList [(4, 1), (4, 2)]) ∧
    ((billboardDrawList [(4, 1), (4, 2)]).filter (fun kv => kv.1 == 4)).length ≤ 1 :=
  ⟨by decide,
    (C9_billboard_reverse_map_order [(4, 1), (4, 2)]).2.1 (4, 1) (by decide),
    (C9_billboard_reverse_map_order [(4, 1), (4, 2)]).2.2 4⟩

/-! ## C2: shader-binding-table regions -/

/-- Bitwise AND with the mask of bits k..n-1 clears the low k bits:
for y below 2^n, y AND (2^n - 2^k) = y / 2^k * 2^k. -/
theorem and_mask_high {y k n : Nat} (hk : k ≤ n) (hy : y < 2 ^ n) :
    y &&& (2 ^ n - 2 ^ k) = y / 2 ^ k * 2 ^ k := by
  have hnk : (n - k) + k = n := by omega
  have hmask : 2 ^ n - 2 ^ k = (2 ^ (n - k) - 1) <<< k := by
    rw [Nat.shiftLeft_eq, Nat.sub_one_mul, ← Nat.pow_add, hnk]
  have hrhs : y / 2 ^ k * 2 ^ k = (y >>> k) <<< k := by
    rw [Nat.shiftLeft_eq, Nat.shiftRight_eq_div_pow]
  rw [hmask, hrhs]
  apply Nat.eq_of_testBit_eq
  intro i
  simp only [Nat.testBit_and, Nat.testBit_shiftLeft, Nat.testBit_shiftRight,
    Nat.testBit_two_pow_sub_one]
  by_cases hik : k ≤ i
  · by_cases hin : i < n
    · have h1 : i - k < n - k := by omega
      have h2 : k + (i - k) = i := by omega
      simp [hik, h1, h2]
    · have hyf : y.testBit i = false :=
        Nat.testBit_lt_two_pow
          (lt_of_lt_of_le hy (Nat.pow_le_pow_right (by decide) (by omega)))
      have h2 : k + (i - k) = i := by omega
      simp [hyf, h2]
  · simp [hik]

/-- For a power-of-two alignment below 2^32, alignUp always produces a
multiple of the alignment, wrap-around included. -/
theorem alignUp_pow2_mod (v k : Nat) (hk : k < 32) :
    alignUp v (2 ^ k) % 2 ^ k = 0 := by
  unfold alignUp
  have hp : (1 : Nat) ≤ 2 ^ k := Nat.one_le_two_pow
  have hkle : 2 ^ k ≤ 2 ^ 31 := Nat.pow_le_pow_right (by decide) (by omega)
  have h1 : (2 ^ k + 2 ^ 32 - 1) % 2 ^ 32 = 2 ^ k - 1 := by
    have he : 2 ^ k + 2 ^ 32 - 1 = (2 ^ k - 1) + 2 ^ 32 := by omega
    rw [he, Nat.add_mod_right, Nat.mod_eq_of_lt (by norm_num at hkle ⊢; omega)]
  rw [h1]
  have h2 : 2 ^ 32 - 1 - (2 ^ k - 1) = 2 ^ 32 - 2 ^ k := by omega
  rw [h2]
  have hy : (v + 2 ^ k + 2 ^ 32 - 1) % 2 ^ 32 < 2 ^ 32 :=
    Nat.mod_lt _ (by norm_num)
  rw [and_mask_high (Nat.le_of_lt hk) hy]
  exact Nat.mul_mod_left _ _

/-- For a power-of-two alignment below 2^32 and a value that does not
overflow, alignUp is the upward rounding of the value to the next
multiple of the alignment. -/
theorem alignUp_pow2_eq (v k : Nat) (hk : k < 32) (hv : v + 2 ^ k ≤ 2 ^ 32) :
    alignUp v (2 ^ k) = (v + 2 ^ k - 1) / 2 ^ k * 2 ^ k := by
  unfold alignUp
  have hp : (1 : Nat) ≤ 2 ^ k := Nat.one_le_two_pow
  have hkle : 2 ^ k ≤ 2 ^ 31 := Nat.pow_le_pow_right (by decide) (by omega)
  have h1 : (2 ^ k + 2 ^ 32 - 1) % 2 ^ 32 = 2 ^ k - 1 := by
    have he : 2 ^ k + 2 ^ 32 - 1 = (2 ^ k - 1) + 2 ^ 32 := by omega
    rw [he, Nat.add_mod_right, Nat.mod_eq_of_lt (by norm_num at hkle ⊢; omega)]
  rw [h1]
  have h2 : 2 ^ 32 - 1 - (2 ^ k - 1) = 2 ^ 32 - 2 ^ k := by omega
  rw [h2]
  have h3 : (v + 2 ^ k + 2 ^ 32 - 1) % 2 ^ 32 = v + 2 ^ k - 1 := by
    have he : v + 2 ^ k + 2 ^ 32 - 1 = (v + 2 ^ k - 1) + 2 ^ 32 := by omega
    rw [he, Nat.add_mod_right, Nat.mod_eq_of_lt (by omega)]
  rw [h3, and_mask_high (Nat.le_of_lt hk) (by omega)]

/-- C2: for device properties with H at most Ha at most Ba, Ha and Ba
powers of two (Ba a uint32_t), and no address overflow, the SBT builder
produces regions with raygen.stride = raygen.size, every region size a
multiple of Ba, miss and hit per-handle stride align_up(H, Ha) (which is
the upward rounding of H to a multiple of Ha), and contiguous region
base addresses. -/
theorem C2_sbt_regions (H Ha Ba addr : Nat) (groups : List ShaderStageKind)
    (j k : Nat) (hHa : Ha = 2 ^ j) (hBa : Ba = 2 ^ k)
    (hHHa : H ≤ Ha) (hHaBa : Ha ≤ Ba) (hBa32 : Ba < 2 ^ 32)
    (haddr : addr + (sbtSectionSizes H Ha Ba groups).1 +
        (sbtSectionSizes H Ha Ba groups).2.1 < 2 ^ 64) :
    ((createSBTRegions H Ha Ba groups addr).raygen.stride =
      (createSBTRegions H Ha Ba groups addr).raygen.size) ∧
    ((createSBTRegions H Ha Ba groups addr).raygen.size % Ba = 0) ∧
    ((createSBTRegions H Ha Ba groups addr).miss.size % Ba = 0) ∧
    ((createSBTRegions H Ha Ba groups addr).hit.size % Ba = 0) ∧
    ((createSBTRegions H Ha Ba groups addr).callable.size % Ba = 0) ∧
    ((createSBTRegions H Ha Ba groups addr).miss.stride = alignUp H Ha) ∧
    ((createSBTRegions H Ha Ba groups addr).hit.stride = alignUp H Ha) ∧
    (alignUp H Ha = Ha * ((H + Ha - 1) / Ha)) ∧
    ((createSBTRegions H Ha Ba groups addr).miss.deviceAddress =
      (createSBTRegions H Ha Ba groups addr).raygen.deviceAddress +
        (createSBTRegions H Ha Ba groups addr).raygen.size) ∧
    ((createSBTRegions H Ha Ba groups addr).hit.deviceAddress =
      (createSBTRegions H Ha Ba groups addr).miss.deviceAddress +
        (createSBTRegions H Ha Ba groups addr).miss.size) := by
  have hk32 : k < 32 := by
    by_contra hcon
    push_neg at hcon
    have := Nat.pow_le_pow_right (by decide : 1 ≤ 2) hcon
    rw [hBa] at hBa32
    omega
  have hj32 : j < 32 := by
    by_contra hcon
    push_neg at hcon
    have := Nat.pow_le_pow_right (by decide : 1 ≤ 2) hcon
    rw [hHa] at hHaBa
    rw [hBa] at hBa32
    have hjk := Nat.pow_le_pow_right (by decide : 1 ≤ 2) (by omega : 32 ≤ k)
    omega
  have hrgsize : (createSBTRegions H Ha Ba groups addr).raygen.size =
      (sbtSectionSizes H Ha Ba groups).1 := rfl
  have hmssize : (createSBTRegions H Ha Ba groups addr).miss.size =
      (sbtSectionSizes H Ha Ba groups).2.1 := rfl
  have hhtsize : (createSBTRegions H Ha Ba groups addr).hit.size =
      (sbtSectionSizes H Ha Ba groups).2.2.1 := rfl
  have hsec1 : (sbtSectionSizes H Ha Ba groups).1 =
      alignUp ((alignUp H Ha * ((groups.count ShaderStageKind.raygen) % 256)) % 2 ^ 32) Ba := rfl
  have hsec2 : (sbtSectionSizes H Ha Ba groups).2.1 =
      alignUp ((alignUp H Ha * ((groups.count ShaderStageKind.miss) % 256)) % 2 ^ 32) Ba := rfl
  have hsec3 : (sbtSectionSizes H Ha Ba groups).2.2.1 =
      alignUp ((alignUp H Ha * ((groups.countP (fun g => g.isHit)) % 256)) % 2 ^ 32) Ba := rfl
  refine ⟨rfl, ?_, ?_, ?_, ?_, rfl, rfl, ?_, ?_, ?_⟩
  · rw [hrgsize, hsec1, hBa]
    exact alignUp_pow2_mod _ k hk32
  · rw [hmssize, hsec2, hBa]
    exact alignUp_pow2_mod _ k hk32
  · rw [hhtsize, hsec3, hBa]
    exact alignUp_pow2_mod _ k hk32
  · show (0 : Nat) % Ba = 0
    exact Nat.zero_mod Ba
  · subst hHa
    have hj2 : 2 ^ j ≤ 2 ^ 31 := Nat.pow_le_pow_right (by decide) (by omega)
    rw [alignUp_pow2_eq H j hj32 (by norm_num at hj2 ⊢; omega)]
    exact Nat.mul_comm _ _
  · show (addr + (sbtSectionSizes H Ha Ba groups).1) % 2 ^ 64 =
      addr % 2 ^ 64 + (sbtSectionSizes H Ha Ba groups).1
    rw [Nat.mod_eq_of_lt (a := addr) (by omega),
      Nat.mod_eq_of_lt (by omega)]
  · show (addr + (sbtSectionSizes H Ha Ba groups).1 +
        (sbtSectionSizes H Ha Ba groups).2.1) % 2 ^ 64 =
      (addr + (sbtSectionSizes H Ha Ba groups).1) % 2 ^ 64 +
        (sbtSectionSizes H Ha Ba groups).2.1
    rw [Nat.mod_eq_of_lt (a := addr + (sbtSectionSizes H Ha Ba groups).1) (by omega),
      Nat.mod_eq_of_lt (by omega)]

/-- Witness for C2 at handle size 32, handle alignment 64, base
alignment 64, one raygen, one miss and one closest-hit group. -/
theorem C2_sbt_regions_witness :
    ((64 : Nat) = 2 ^ 6) ∧
    ((createSBTRegions 32 64 64
        [ShaderStageKind.raygen, ShaderStageKind.miss, ShaderStageKind.closestHit]
        4096).raygen.stride =
      (createSBTRegions 32 64 64
        [ShaderStageKind.raygen, ShaderStageKind.miss, ShaderStageKind.closestHit]
        4096).raygen.size) ∧
    ((createSBTRegions 32 64 64
        [ShaderStageKind.raygen, ShaderStageKind.miss, ShaderStageKind.closestHit]
        4096).raygen.size % 64 = 0) ∧
    ((createSBTRegions 32 64 64
        [ShaderStageKind.raygen, ShaderStageKind.miss, ShaderStageKind.closestHit]
        4096).miss.size % 64 = 0) ∧
    ((createSBTRegions 32 64 64
        [ShaderStageKind.raygen, ShaderStageKind.miss, ShaderStageKind.closestHit]
        4096).hit.size % 64 = 0) ∧
    ((createSBTRegions 32 64 64
        [ShaderStageKind.raygen, ShaderStageKind.miss, ShaderStageKind.closestHit]
        4096).callable.size % 64 = 0) ∧
    ((createSBTRegions 32 64 64
        [ShaderStageKind.raygen, ShaderStageKind.miss, ShaderStageKind.closestHit]
        4096).miss.stride = alignUp 32 64) ∧
    ((createSBTRegions 32 64 64
        [ShaderStageKind.raygen, ShaderStageKind.miss, ShaderStageKind.closestHit]
        4096).hit.stride = alignUp 32 64) ∧
    (alignUp 32 64 = 64 * ((32 + 64 - 1) / 64)) ∧
    ((createSBTRegions 32 64 64
        [ShaderStageKind.raygen, ShaderStageKind.miss, ShaderStageKind.closestHit]
        4096).miss.deviceAddress =
      (createSBTRegions 32 64 64
        [ShaderStageKind.raygen, ShaderStageKind.miss, ShaderStageKind.closestHit]
        4096).raygen.deviceAddress +
      (createSBTRegions 32 64 64
        [ShaderStageKind.raygen, ShaderStageKind.miss, ShaderStageKind.closestHit]
        4096).raygen.size) ∧
    ((createSBTRegions 32 64 64
        [ShaderStageKind.raygen, ShaderStageKind.miss, ShaderStageKind.closestHit]
        4096).hit.deviceAddress =
      (createSBTRegions 32 64 64
        [ShaderStageKind.raygen, ShaderStageKind.miss, ShaderStageKind.closestHit]
        4096).miss.deviceAddress +
      (createSBTRegions 32 64 64
        [ShaderStageKind.raygen, ShaderStageKind.miss, ShaderStageKind.closestHit]
        4096).miss.size) :=
  ⟨by norm_num,
    C2_sbt_regions 32 64 64 4096
      [ShaderStageKind.raygen, ShaderStageKind.miss, ShaderStageKind.closestHit]
      6 6 (by norm_num) (by norm_num) (by norm_num) (by norm_num) (by norm_num)
      (by decide)⟩

end PXTEngine
